import Mathlib

/-!
Verification development for the RTC-S1 geocoding workflow
(`src/app/rtc_s1.py`).  The definitions below are shallow embeddings of
the functions of that file: Python floats are modelled by `ℚ` where only
ring operations and comparisons occur, and by `ℝ` (with explicit
NaN/Inf bookkeeping) where `np.sqrt` and NaN-producing divisions occur;
the mutable `mosaic_geogrid_dict` becomes explicit state passing, and a
raised `AssertionError`/`KeyError` becomes an explicit error value
returned together with the state as it stands when the exception fires.
-/

/-- Fields of `isce3.product.GeoGridParameters` used by the workflow
(`start_x`, `start_y`, `spacing_x`, `spacing_y`, `width`, `length`, `epsg`). -/
structure GeoGridParams where
  start_x : ℚ
  start_y : ℚ
  spacing_x : ℚ
  spacing_y : ℚ
  width : ℕ
  length : ℕ
  epsg : ℤ
deriving DecidableEq

/-- The `mosaic_geogrid_dict` of `run` restricted to the keys touched by
`_update_mosaic_boundaries` (`x0`, `xf`, `y0`, `yf`, `dx`, `dy`, `epsg`);
`none` models an absent key.  The `orbit`/`wavelength`/`lookside` keys are
set elsewhere in `run` and play no role in the boundary logic. -/
structure MosaicDict where
  x0 : Option ℚ := none
  xf : Option ℚ := none
  y0 : Option ℚ := none
  yf : Option ℚ := none
  dx : Option ℚ := none
  dy : Option ℚ := none
  epsg : Option ℤ := none
deriving DecidableEq

/-- Which of the three `assert` statements of `_update_mosaic_boundaries`
fired (Python raises `AssertionError`; the spec calls this condition a
`ConfigurationMismatch`). -/
inductive MismatchError where
  | dx
  | dy
  | epsg
deriving DecidableEq

/-- The `mosaic_geogrid_dict = {}` initialization of `run` (line 289). -/
def emptyMosaicDict : MosaicDict := {}

/-- Lines 42-55 of `_update_mosaic_boundaries`: the four bounding-box
updates.  Each key is set when absent or when the burst geogrid widens the
recorded extent (`x0` min-seeking, `xf` max-seeking, `y0` max-seeking,
`yf` min-seeking, with `xf = start_x + spacing_x * width` and
`yf = start_y + spacing_y * length`). -/
def updateBBox (d : MosaicDict) (g : GeoGridParams) : MosaicDict :=
  let xfg : ℚ := g.start_x + g.spacing_x * (g.width : ℚ)
  let yfg : ℚ := g.start_y + g.spacing_y * (g.length : ℚ)
  { d with
    x0 := some (match d.x0 with
      | none => g.start_x
      | some v => if g.start_x < v then g.start_x else v),
    xf := some (match d.xf with
      | none => xfg
      | some v => if v < xfg then xfg else v),
    y0 := some (match d.y0 with
      | none => g.start_y
      | some v => if v < g.start_y then g.start_y else v),
    yf := some (match d.yf with
      | none => yfg
      | some v => if yfg < v then yfg else v) }

/-- Lines 56-59: set `dx` when absent, otherwise
`assert(mosaic_geogrid_dict['dx'] == geogrid.spacing_x)`. -/
def checkDx (d : MosaicDict) (g : GeoGridParams) : MosaicDict × Option MismatchError :=
  match d.dx with
  | none => ({ d with dx := some g.spacing_x }, none)
  | some v => if v = g.spacing_x then (d, none) else (d, some MismatchError.dx)

/-- Lines 60-63: set `dy` when absent, otherwise assert equality with
`geogrid.spacing_y`. -/
def checkDy (d : MosaicDict) (g : GeoGridParams) : MosaicDict × Option MismatchError :=
  match d.dy with
  | none => ({ d with dy := some g.spacing_y }, none)
  | some v => if v = g.spacing_y then (d, none) else (d, some MismatchError.dy)

/-- Lines 64-67: set `epsg` when absent, otherwise assert equality with
`geogrid.epsg`. -/
def checkEpsg (d : MosaicDict) (g : GeoGridParams) : MosaicDict × Option MismatchError :=
  match d.epsg with
  | none => ({ d with epsg := some g.epsg }, none)
  | some v => if v = g.epsg then (d, none) else (d, some MismatchError.epsg)

/-- The whole of `_update_mosaic_boundaries` (lines 29-67).  The statements
run in source order: the four bounding-box updates first, then the `dx`,
`dy`, `epsg` asserts; the first failing assert aborts the function, and
the returned dictionary is the state at that moment (Python mutates the
dict in place, so updates made before the raise persist). -/
def updateMosaicBoundaries (d : MosaicDict) (g : GeoGridParams) :
    MosaicDict × Option MismatchError :=
  let d1 := updateBBox d g
  match checkDx d1 g with
  | (d2, some e) => (d2, some e)
  | (d2, none) =>
    match checkDy d2 g with
    | (d3, some e) => (d3, some e)
    | (d3, none) => checkEpsg d3 g

/-- Lines 462-475 of `run`, row `i` of the final `valid_samples_sub_swath`
array: the array starts as `length` copies of
`[first_valid_sample, min(last_valid_sample, width) + 1]`
(`last_range_sample = min([burst.last_valid_sample, radar_grid.width])`),
then the loop over `range(first_valid_line)` zeroes the leading rows and
the loop over `range(last_valid_line, length)` zeroes the trailing rows. -/
def validSampleRow (width fvl lvl fvs lvs i : ℕ) : ℕ × ℕ :=
  if i < fvl then (0, 0)
  else if lvl ≤ i then (0, 0)
  else (fvs, min lvs width + 1)

/-- The full per-line table handed to `sub_swaths.set_valid_samples_array`:
one row per radar line of `radar_grid.length`. -/
def validSampleTable (len width fvl lvl fvs lvs : ℕ) : List (ℕ × ℕ) :=
  (List.range len).map (validSampleRow width fvl lvl fvs lvs)

/-- Run-configuration flags of `run` that drive the file-lifecycle
bookkeeping of the burst loop (lines 170-174, 184-188, 226-227, 296). -/
structure RunFlags where
  output_format : String
  flag_mosaic : Bool
  n_bursts : ℕ
  apply_thermal_noise : Bool
  apply_abs_rad : Bool
  save_nlooks : Bool
  save_rtc_anf : Bool
deriving DecidableEq

/-- Line 188: `flag_hdf5 = (output_format == 'HDF5' or output_format == 'NETCDF')`. -/
def flagHdf5 (c : RunFlags) : Bool :=
  c.output_format == "HDF5" || c.output_format == "NETCDF"

/-- Lines 315-316: `flag_bursts_files_are_temporary =
flag_hdf5 or (flag_mosaic and not n_bursts == 1)`, computed once per burst
at the top of the loop body, before any artifact of the burst is created. -/
def flagBurstsFilesAreTemporary (c : RunFlags) : Bool :=
  flagHdf5 c || (c.flag_mosaic && !(c.n_bursts == 1))

/-- Line 358: the guard under which `apply_slc_corrections` is invoked. -/
def applyCorrections (c : RunFlags) : Bool :=
  c.apply_thermal_noise || c.apply_abs_rad

/-- The file paths the burst loop creates for one burst, named by role
(paths are per-burst-unique strings in the source; the role determines the
path template, so roles stand in for paths). -/
inductive BurstFile where
  | rawSlcVrt (pol : String)
  | correctedSlc (pol : String)
  | multiBandVrt
  | geoBurst
  | nlooksFile
  | rtcAnfFile
deriving DecidableEq

/-- Files created during one burst iteration, in creation order:
line 356 writes `rslc_{pol}.vrt` for every polarization
(`burst_pol.slc_to_vrt_file(temp_slc_path)` runs before the correction
branch); line 360 writes `rslc_{pol}_corrected.{ext}` iff corrections are
enabled; line 380 writes the multi-band `rslc.vrt` iff more than one input
file; line 397 creates the geocoded burst raster; lines 438 and 452 create
the nlooks and rtc-anf rasters iff their save flags are on. -/
def burstCreatedFiles (c : RunFlags) (pols : List String) : List BurstFile :=
  (pols.map BurstFile.rawSlcVrt) ++
  (if applyCorrections c then pols.map BurstFile.correctedSlc else []) ++
  (if pols.length == 1 then [] else [BurstFile.multiBandVrt]) ++
  [BurstFile.geoBurst] ++
  (if c.save_nlooks then [BurstFile.nlooksFile] else []) ++
  (if c.save_rtc_anf then [BurstFile.rtcAnfFile] else [])

/-- Appends to `temp_files_list` during one burst iteration: line 372
records `input_burst_filename` (the corrected SLC when corrections ran,
the raw VRT otherwise); line 383 records the multi-band VRT; lines 390,
435, 449 record the geocoded/nlooks/rtc-anf rasters when
`flag_bursts_files_are_temporary`. -/
def burstTempFiles (c : RunFlags) (pols : List String) : List BurstFile :=
  (pols.map (fun p =>
    if applyCorrections c then BurstFile.correctedSlc p else BurstFile.rawSlcVrt p)) ++
  (if pols.length == 1 then [] else [BurstFile.multiBandVrt]) ++
  (if flagBurstsFilesAreTemporary c then [BurstFile.geoBurst] else []) ++
  (if c.save_nlooks && flagBurstsFilesAreTemporary c then [BurstFile.nlooksFile] else []) ++
  (if c.save_rtc_anf && flagBurstsFilesAreTemporary c then [BurstFile.rtcAnfFile] else [])

/-- Appends to `output_file_list` during one burst iteration: lines 395,
437, 451 record the geocoded/nlooks/rtc-anf rasters when the burst files
are not temporary. -/
def burstOutputFiles (c : RunFlags) : List BurstFile :=
  (if flagBurstsFilesAreTemporary c then [] else [BurstFile.geoBurst]) ++
  (if c.save_nlooks && !flagBurstsFilesAreTemporary c then [BurstFile.nlooksFile] else []) ++
  (if c.save_rtc_anf && !flagBurstsFilesAreTemporary c then [BurstFile.rtcAnfFile] else [])

/-- Appends into `output_metadata_dict` value lists during one burst
iteration: line 515 appends the nlooks raster, line 521 the rtc-anf
raster, each under its save flag. -/
def burstMetadataFiles (c : RunFlags) : List BurstFile :=
  (if c.save_nlooks then [BurstFile.nlooksFile] else []) ++
  (if c.save_rtc_anf then [BurstFile.rtcAnfFile] else [])

/-- Lines 268-269 of `run`: `exponent = 1 if
(flag_apply_thermal_noise_correction or flag_apply_abs_rad_correction)
else 2`; this value is passed verbatim as the `exponent` argument of
`geo_obj.geocode` (line 487). -/
def runExponent (flag_apply_thermal_noise_correction flag_apply_abs_rad_correction : Bool) : ℕ :=
  if flag_apply_thermal_noise_correction || flag_apply_abs_rad_correction then 1 else 2

/-- Lines 358-367 of `run`: iff thermal-noise or absolute-radiometric
correction is enabled, `apply_slc_corrections` is called with the literal
keyword arguments `flag_output_complex=False`,
`flag_thermal_correction=flag_apply_thermal_noise_correction` and
`flag_apply_abs_rad_correction=True`; otherwise it is not called.
The result records `(flag_output_complex, flag_thermal_correction,
flag_apply_abs_rad_correction)` as passed, `none` when not called. -/
def slcCorrectionCallArgs (flag_apply_thermal_noise_correction flag_apply_abs_rad_correction : Bool) :
    Option (Bool × Bool × Bool) :=
  if flag_apply_thermal_noise_correction || flag_apply_abs_rad_correction then
    some (false, flag_apply_thermal_noise_correction, true)
  else
    none

/-- The `output_metadata_dict` of `run`: an association list mapping a
semantic key to `[output_path, output_image_list]` (Python dicts preserve
insertion order). -/
abbrev OutputMetadataDict : Type := List (String × String × List String)

/-- Lines 89-96, `_add_output_to_output_metadata_dict`: returns the dict
unchanged when `flag` is false, otherwise inserts
`key -> [os.path.join(output_dir, product_id_key.extension), []]`. -/
def addOutputToOutputMetadataDict (flag : Bool) (key output_dir product_id extension : String)
    (d : OutputMetadataDict) : OutputMetadataDict :=
  if !flag then d
  else d ++ [(key, output_dir ++ "/" ++ product_id ++ "_" ++ key ++ "." ++ extension, [])]

/-- The dict lookup `output_metadata_dict[key]`: Python raises `KeyError`
when the key is absent. -/
def dictLookup (d : OutputMetadataDict) (key : String) :
    Except String (String × List String) :=
  match d.find? (fun kv => kv.1 == key) with
  | some kv => Except.ok kv.2
  | none => Except.error ("KeyError: " ++ key)

/-- In-place `output_metadata_dict[key][1].append(v)` on a present key
(absent keys are unchanged; the callers guard presence with the same flag
that inserted the key). -/
def dictAppendToKey (d : OutputMetadataDict) (key v : String) : OutputMetadataDict :=
  d.map (fun kv => if kv.1 = key then (kv.1, kv.2.1, kv.2.2 ++ [v]) else kv)

/-- Lines 282-287 of `run`: the two `_add_output_to_output_metadata_dict`
calls that build `output_metadata_dict` from `{}` before the burst loop,
inserting `nlooks` under `flag_save_nlooks` and `rtc` under
`flag_save_rtc_anf`. -/
def initialOutputMetadataDict (save_nlooks save_rtc_anf : Bool)
    (output_dir product_id extension : String) : OutputMetadataDict :=
  addOutputToOutputMetadataDict save_rtc_anf "rtc" output_dir product_id extension
    (addOutputToOutputMetadataDict save_nlooks "nlooks" output_dir product_id extension [])

/-- Lines 511-521 of `run`, the metadata-dict effect of one burst
iteration: `output_metadata_dict['nlooks'][1].append(nlooks_file)` under
`flag_save_nlooks` and `output_metadata_dict['rtc'][1].append(rtc_anf_file)`
under `flag_save_rtc_anf`, each a `KeyError` if the key is absent. -/
def burstMetadataUpdate (save_nlooks save_rtc_anf : Bool) (nlooks_file rtc_anf_file : String)
    (d : OutputMetadataDict) : Except String OutputMetadataDict :=
  match (if save_nlooks then
          (dictLookup d "nlooks").map (fun _ => dictAppendToKey d "nlooks" nlooks_file)
        else Except.ok d) with
  | Except.error e => Except.error e
  | Except.ok d1 =>
    if save_rtc_anf then
      (dictLookup d1 "rtc").map (fun _ => dictAppendToKey d1 "rtc" rtc_anf_file)
    else Except.ok d1

/-- The burst loop iterated `n` times (each burst performs the
metadata-dict updates of lines 511-521). -/
def burstLoopMetadata (save_nlooks save_rtc_anf : Bool) (nlooks_file rtc_anf_file : String) :
    ℕ → OutputMetadataDict → Except String OutputMetadataDict
  | 0, d => Except.ok d
  | n + 1, d =>
    match burstMetadataUpdate save_nlooks save_rtc_anf nlooks_file rtc_anf_file d with
    | Except.error e => Except.error e
    | Except.ok d1 => burstLoopMetadata save_nlooks save_rtc_anf nlooks_file rtc_anf_file n d1

/-- Line 587 of `run`: `nlooks_list = output_metadata_dict['nlooks'][1]`,
executed unconditionally at the start of the mosaic stage. -/
def mosaicStageNlooks (d : OutputMetadataDict) : Except String (List String) :=
  (dictLookup d "nlooks").map (fun v => v.2)

/-- The metadata-dict thread of `run` up to and including line 587: build
the dict before the loop (lines 282-287), run the burst loop, then, iff
`flag_mosaic`, read the nlooks list at the mosaic stage.  `ok none` means
the run never enters the mosaic stage; `ok (some l)` is the nlooks list
the mosaic stage obtains; `error` is an uncaught `KeyError`. -/
def runMetadataPipeline (flag_mosaic save_nlooks save_rtc_anf : Bool) (n_bursts : ℕ)
    (output_dir product_id extension nlooks_file rtc_anf_file : String) :
    Except String (Option (List String)) :=
  let d0 := initialOutputMetadataDict save_nlooks save_rtc_anf output_dir product_id extension
  match burstLoopMetadata save_nlooks save_rtc_anf nlooks_file rtc_anf_file n_bursts d0 with
  | Except.error e => Except.error e
  | Except.ok d =>
    if flag_mosaic then (mosaicStageNlooks d).map some
    else Except.ok none

/-- Model of one numpy single-precision real value along the
`factor_mag` computation of `apply_slc_corrections`: either a finite real
or one of the non-finite values that the divisions there can produce
(`0/0` is NaN, `positive/0` is +Inf; all quantities divided are
non-negative, so -Inf never arises on this path). -/
inductive NpR where
  | fin (x : ℝ)
  | nan
  | inf

/-- Line 116 / 119-120 / 122 of `apply_slc_corrections`: the corrected
power of one pixel.  `np.abs(slc) ** 2` is the pixel power; under
`flag_thermal_correction` the thermal-noise LUT value is subtracted and
the result clipped to `[0, None]`, i.e. `max (power - noise) 0`. -/
noncomputable def thermalCorrectedPower (power noise : ℝ) (flag_thermal_correction : Bool) : ℝ :=
  if flag_thermal_correction then max (power - noise) 0 else power

open Classical in
/-- Numpy division of the two non-negative reals of line 127
(`np.sqrt(corrected_image) / np.abs(arr_slc_from)`): finite quotient when
the denominator is nonzero, NaN for `0/0`, +Inf for `positive/0`. -/
noncomputable def npDivNonneg (a b : ℝ) : NpR :=
  if b = 0 then (if a = 0 then NpR.nan else NpR.inf) else NpR.fin (a / b)

/-- Line 128: `factor_mag[np.isnan(factor_mag)] = 0.0` — NaN entries (and
only NaN entries) are replaced by `0.0`. -/
def replaceNanWithZero : NpR → NpR
  | NpR.nan => NpR.fin 0
  | v => v

open Classical in
/-- Lines 114-133 of `apply_slc_corrections` for one pixel on the
`flag_output_complex=True` branch: corrected power (with optional thermal
correction and clipping), then
`factor_mag = np.sqrt(corrected_image) / np.abs(arr_slc_from)` with NaN
mapped to `0.0`, then `corrected_image = arr_slc_from * factor_mag`, then
division by `beta_naught` under `flag_apply_abs_rad_correction`.
`some z` is a finite complex pixel value; `none` means the pixel is
non-finite (an Inf factor, or a division by a zero `beta_naught`,
contaminates the pixel with Inf/NaN). -/
noncomputable def applySlcCorrectionsComplexPixel (slc : ℂ) (noise beta_naught : ℝ)
    (flag_thermal_correction flag_apply_abs_rad_correction : Bool) : Option ℂ :=
  let corrected := thermalCorrectedPower (Complex.abs slc ^ 2) noise flag_thermal_correction
  match replaceNanWithZero (npDivNonneg (Real.sqrt corrected) (Complex.abs slc)) with
  | NpR.fin f =>
    let corrected_complex : ℂ := slc * (f : ℂ)
    if flag_apply_abs_rad_correction then
      if beta_naught = 0 then none else some (corrected_complex / (beta_naught : ℂ))
    else some corrected_complex
  | _ => none

/-- Lines 114-138 of `apply_slc_corrections` for one pixel on the
`flag_output_complex=False` branch: the (optionally thermal-corrected,
clipped) power, divided by `beta_naught ** 2` under
`flag_apply_abs_rad_correction`. -/
noncomputable def applySlcCorrectionsPowerPixel (slc : ℂ) (noise beta_naught : ℝ)
    (flag_thermal_correction flag_apply_abs_rad_correction : Bool) : ℝ :=
  let corrected := thermalCorrectedPower (Complex.abs slc ^ 2) noise flag_thermal_correction
  if flag_apply_abs_rad_correction then corrected / beta_naught ^ 2 else corrected

/-- First example geogrid: start `(0, 100)`, spacing `(5, -5)`,
width/length `10`, EPSG `32610`. -/
def exampleGeogridA : GeoGridParams :=
  { start_x := 0, start_y := 100, spacing_x := 5, spacing_y := -5,
    width := 10, length := 10, epsg := 32610 }

/-- Second example geogrid: start `(40, 80)`, same spacing and EPSG. -/
def exampleGeogridB : GeoGridParams :=
  { start_x := 40, start_y := 80, spacing_x := 5, spacing_y := -5,
    width := 10, length := 10, epsg := 32610 }

/-- A mosaic dictionary as left by a previous successful update:
every key recorded. -/
def initializedDict : MosaicDict :=
  { x0 := some 10, xf := some 50, y0 := some 100, yf := some 50,
    dx := some 5, dy := some (-5), epsg := some 32610 }

/-- A geogrid whose EPSG code (4326) differs from the one recorded in
`initializedDict` (32610) and whose `start_x = 0` lies left of the
recorded `x0 = 10`. -/
def mismatchedGeogrid : GeoGridParams :=
  { start_x := 0, start_y := 100, spacing_x := 5, spacing_y := -5,
    width := 10, length := 10, epsg := 4326 }

theorem updateBBox_dx (d : MosaicDict) (g : GeoGridParams) : (updateBBox d g).dx = d.dx := rfl

theorem updateBBox_dy (d : MosaicDict) (g : GeoGridParams) : (updateBBox d g).dy = d.dy := rfl

theorem updateBBox_epsg (d : MosaicDict) (g : GeoGridParams) :
    (updateBBox d g).epsg = d.epsg := rfl

theorem ite_min_comm (a b : ℚ) : (if a < b then a else b) = (if b < a then b else a) := by
  rcases lt_trichotomy a b with h | h | h
  · rw [if_pos h, if_neg (not_lt.mpr h.le)]
  · simp [h]
  · rw [if_neg (not_lt.mpr h.le), if_pos h]

theorem ite_max_comm (a b : ℚ) : (if a < b then b else a) = (if b < a then a else b) := by
  rcases lt_trichotomy a b with h | h | h
  · rw [if_pos h, if_neg (not_lt.mpr h.le)]
  · simp [h]
  · rw [if_neg (not_lt.mpr h.le), if_pos h]

/-- Applying `_update_mosaic_boundaries` to the empty dictionary records
the geogrid's extent, spacing and EPSG outright and raises nothing. -/
theorem update_empty (g : GeoGridParams) :
    updateMosaicBoundaries emptyMosaicDict g =
      ({ x0 := some g.start_x,
         xf := some (g.start_x + g.spacing_x * (g.width : ℚ)),
         y0 := some g.start_y,
         yf := some (g.start_y + g.spacing_y * (g.length : ℚ)),
         dx := some g.spacing_x, dy := some g.spacing_y,
         epsg := some g.epsg }, none) := rfl

/-- C1, counterexample: on `initializedDict` and `mismatchedGeogrid`
(EPSG 4326 against recorded 32610), `_update_mosaic_boundaries` does
raise, but the prior accumulator state is NOT left unmodified: `x0` has
already been widened from `some 10` to `some 0` when the `epsg` assert
fires, because the four bounding-box updates precede the three asserts. -/
theorem update_mismatch_claim_counterexample :
    (updateMosaicBoundaries initializedDict mismatchedGeogrid).2 = some MismatchError.epsg ∧
    (updateMosaicBoundaries initializedDict mismatchedGeogrid).1.x0 = some 0 ∧
    (updateMosaicBoundaries initializedDict mismatchedGeogrid).1.x0 ≠ initializedDict.x0 := by
  decide

/-- C1, amended: for every accumulator state already initialized by a
previous update and every geogrid whose `dx`, `dy` or `epsg` differs from
the recorded value, `_update_mosaic_boundaries` raises a
`ConfigurationMismatch` error and leaves the recorded `dx`, `dy`, `epsg`
unmodified — but the bounding-box fields `x0`, `xf`, `y0`, `yf` may
already have been widened by the mismatched geogrid before the error is
raised. -/
theorem update_mismatch_raises_preserves_config (d : MosaicDict) (g : GeoGridParams)
    (hdx : d.dx.isSome = true) (hdy : d.dy.isSome = true) (hepsg : d.epsg.isSome = true)
    (hmis : d.dx ≠ some g.spacing_x ∨ d.dy ≠ some g.spacing_y ∨ d.epsg ≠ some g.epsg) :
    (updateMosaicBoundaries d g).2.isSome = true ∧
    (updateMosaicBoundaries d g).1.dx = d.dx ∧
    (updateMosaicBoundaries d g).1.dy = d.dy ∧
    (updateMosaicBoundaries d g).1.epsg = d.epsg := by
  rcases Option.isSome_iff_exists.mp hdx with ⟨vx, hvx⟩
  rcases Option.isSome_iff_exists.mp hdy with ⟨vy, hvy⟩
  rcases Option.isSome_iff_exists.mp hepsg with ⟨ve, hve⟩
  by_cases h1 : vx = g.spacing_x
  · by_cases h2 : vy = g.spacing_y
    · by_cases h3 : ve = g.epsg
      · exfalso
        rcases hmis with h | h | h <;> simp_all
      · simp [updateMosaicBoundaries, checkDx, checkDy, checkEpsg,
          updateBBox_dx, updateBBox_dy, updateBBox_epsg, hvx, hvy, hve, h1, h2, h3]
    · simp [updateMosaicBoundaries, checkDx, checkDy, checkEpsg,
        updateBBox_dx, updateBBox_dy, updateBBox_epsg, hvx, hvy, hve, h1, h2]
  · simp [updateMosaicBoundaries, checkDx, checkDy, checkEpsg,
      updateBBox_dx, updateBBox_dy, updateBBox_epsg, hvx, hvy, hve, h1]

theorem update_mismatch_raises_preserves_config_witness :
    initializedDict.dx.isSome = true ∧ initializedDict.dy.isSome = true ∧
    initializedDict.epsg.isSome = true ∧
    initializedDict.epsg ≠ some mismatchedGeogrid.epsg ∧
    ((updateMosaicBoundaries initializedDict mismatchedGeogrid).2.isSome = true ∧
     (updateMosaicBoundaries initializedDict mismatchedGeogrid).1.dx = initializedDict.dx ∧
     (updateMosaicBoundaries initializedDict mismatchedGeogrid).1.dy = initializedDict.dy ∧
     (updateMosaicBoundaries initializedDict mismatchedGeogrid).1.epsg = initializedDict.epsg) :=
  ⟨by decide, by decide, by decide, by decide,
    update_mismatch_raises_preserves_config initializedDict mismatchedGeogrid
      (by decide) (by decide) (by decide) (Or.inr (Or.inr (by decide)))⟩

/-- Applying `_update_mosaic_boundaries` to a fully-initialized dictionary
whose recorded spacing and EPSG match the geogrid widens the four
bounding-box keys and raises nothing. -/
theorem update_full (d : MosaicDict) (g : GeoGridParams) (x0 xf y0 yf : ℚ)
    (hx0 : d.x0 = some x0) (hxf : d.xf = some xf)
    (hy0 : d.y0 = some y0) (hyf : d.yf = some yf)
    (hdx : d.dx = some g.spacing_x) (hdy : d.dy = some g.spacing_y)
    (hepsg : d.epsg = some g.epsg) :
    updateMosaicBoundaries d g =
      ({ x0 := some (if g.start_x < x0 then g.start_x else x0),
         xf := some (if xf < g.start_x + g.spacing_x * (g.width : ℚ) then
                       g.start_x + g.spacing_x * (g.width : ℚ) else xf),
         y0 := some (if y0 < g.start_y then g.start_y else y0),
         yf := some (if g.start_y + g.spacing_y * (g.length : ℚ) < yf then
                       g.start_y + g.spacing_y * (g.length : ℚ) else yf),
         dx := some g.spacing_x, dy := some g.spacing_y,
         epsg := some g.epsg }, none) := by
  obtain ⟨d1, d2, d3, d4, d5, d6, d7⟩ := d
  simp only at hx0 hxf hy0 hyf hdx hdy hepsg
  subst hx0 hxf hy0 hyf hdx hdy hepsg
  simp [updateMosaicBoundaries, updateBBox, checkDx, checkDy, checkEpsg]

/-- C6: applying `_update_mosaic_boundaries` to the empty accumulator with
the two geogrids sharing `dx=5, dy=-5, epsg=32610`, with starts `(0,100)`
and `(40,80)` and width/length `(10,10)`, succeeds and yields the union
bounding box `x0=0, xf=90, y0=100, yf=30` (`start_y` maximum-seeking, the
far y edge `start_y + spacing_y*length` minimum-seeking). -/
theorem mosaic_boundaries_union_example :
    (updateMosaicBoundaries emptyMosaicDict exampleGeogridA).2 = none ∧
    (updateMosaicBoundaries
      (updateMosaicBoundaries emptyMosaicDict exampleGeogridA).1 exampleGeogridB).2 = none ∧
    (updateMosaicBoundaries
      (updateMosaicBoundaries emptyMosaicDict exampleGeogridA).1 exampleGeogridB).1.x0 = some 0 ∧
    (updateMosaicBoundaries
      (updateMosaicBoundaries emptyMosaicDict exampleGeogridA).1 exampleGeogridB).1.xf = some 90 ∧
    (updateMosaicBoundaries
      (updateMosaicBoundaries emptyMosaicDict exampleGeogridA).1 exampleGeogridB).1.y0 = some 100 ∧
    (updateMosaicBoundaries
      (updateMosaicBoundaries emptyMosaicDict exampleGeogridA).1 exampleGeogridB).1.yf = some 30 := by
  rw [update_empty exampleGeogridA,
    update_full _ exampleGeogridB _ _ _ _ rfl rfl rfl rfl rfl rfl rfl]
  norm_num [exampleGeogridA, exampleGeogridB]

/-- C7: for every two geogrids with equal `dx`, `dy` and `epsg`, applying
`_update_mosaic_boundaries` to the empty accumulator in either order
raises nothing and yields the same accumulated bounding box
`(x0, xf, y0, yf)`. -/
theorem updateMosaicBoundaries_comm (g1 g2 : GeoGridParams)
    (hdx : g1.spacing_x = g2.spacing_x) (hdy : g1.spacing_y = g2.spacing_y)
    (hepsg : g1.epsg = g2.epsg) :
    (updateMosaicBoundaries (updateMosaicBoundaries emptyMosaicDict g1).1 g2).2 = none ∧
    (updateMosaicBoundaries (updateMosaicBoundaries emptyMosaicDict g2).1 g1).2 = none ∧
    (updateMosaicBoundaries (updateMosaicBoundaries emptyMosaicDict g1).1 g2).1.x0 =
      (updateMosaicBoundaries (updateMosaicBoundaries emptyMosaicDict g2).1 g1).1.x0 ∧
    (updateMosaicBoundaries (updateMosaicBoundaries emptyMosaicDict g1).1 g2).1.xf =
      (updateMosaicBoundaries (updateMosaicBoundaries emptyMosaicDict g2).1 g1).1.xf ∧
    (updateMosaicBoundaries (updateMosaicBoundaries emptyMosaicDict g1).1 g2).1.y0 =
      (updateMosaicBoundaries (updateMosaicBoundaries emptyMosaicDict g2).1 g1).1.y0 ∧
    (updateMosaicBoundaries (updateMosaicBoundaries emptyMosaicDict g1).1 g2).1.yf =
      (updateMosaicBoundaries (updateMosaicBoundaries emptyMosaicDict g2).1 g1).1.yf := by
  rw [update_empty g1, update_empty g2,
    update_full _ g2 _ _ _ _ rfl rfl rfl rfl (by rw [hdx]) (by rw [hdy]) (by rw [hepsg]),
    update_full _ g1 _ _ _ _ rfl rfl rfl rfl (by rw [hdx]) (by rw [hdy]) (by rw [hepsg])]
  refine ⟨rfl, rfl, ?_, ?_, ?_, ?_⟩
  · exact congrArg some (ite_min_comm g2.start_x g1.start_x)
  · exact congrArg some
      (ite_max_comm (g1.start_x + g1.spacing_x * (g1.width : ℚ))
        (g2.start_x + g2.spacing_x * (g2.width : ℚ)))
  · exact congrArg some (ite_max_comm g1.start_y g2.start_y)
  · exact congrArg some
      (ite_min_comm (g2.start_y + g2.spacing_y * (g2.length : ℚ))
        (g1.start_y + g1.spacing_y * (g1.length : ℚ)))

theorem updateMosaicBoundaries_comm_witness :
    exampleGeogridA.spacing_x = exampleGeogridB.spacing_x ∧
    exampleGeogridA.spacing_y = exampleGeogridB.spacing_y ∧
    exampleGeogridA.epsg = exampleGeogridB.epsg ∧
    ((updateMosaicBoundaries
        (updateMosaicBoundaries emptyMosaicDict exampleGeogridA).1 exampleGeogridB).2 = none ∧
     (updateMosaicBoundaries
        (updateMosaicBoundaries emptyMosaicDict exampleGeogridB).1 exampleGeogridA).2 = none ∧
     (updateMosaicBoundaries
        (updateMosaicBoundaries emptyMosaicDict exampleGeogridA).1 exampleGeogridB).1.x0 =
       (updateMosaicBoundaries
        (updateMosaicBoundaries emptyMosaicDict exampleGeogridB).1 exampleGeogridA).1.x0 ∧
     (updateMosaicBoundaries
        (updateMosaicBoundaries emptyMosaicDict exampleGeogridA).1 exampleGeogridB).1.xf =
       (updateMosaicBoundaries
        (updateMosaicBoundaries emptyMosaicDict exampleGeogridB).1 exampleGeogridA).1.xf ∧
     (updateMosaicBoundaries
        (updateMosaicBoundaries emptyMosaicDict exampleGeogridA).1 exampleGeogridB).1.y0 =
       (updateMosaicBoundaries
        (updateMosaicBoundaries emptyMosaicDict exampleGeogridB).1 exampleGeogridA).1.y0 ∧
     (updateMosaicBoundaries
        (updateMosaicBoundaries emptyMosaicDict exampleGeogridA).1 exampleGeogridB).1.yf =
       (updateMosaicBoundaries
        (updateMosaicBoundaries emptyMosaicDict exampleGeogridB).1 exampleGeogridA).1.yf) :=
  ⟨rfl, rfl, rfl, updateMosaicBoundaries_comm exampleGeogridA exampleGeogridB rfl rfl rfl⟩

/-- C2, counterexample: with `first_valid_line=0, last_valid_line=1,
first_valid_sample=0, last_valid_sample=30, width=30, length=1` the code
produces the interval `[0, 31)` for line 0 — the code clamps with
`min(last_valid_sample, width) + 1`, not the claimed
`min(last_valid_sample, width-1) + 1`, which would give `[0, 30)`. -/
theorem validSampleTable_claim_formula_counterexample :
    (validSampleTable 1 30 0 1 0 30)[0]? = some (0, 31) ∧
    ((0 : ℕ), (31 : ℕ)) ≠ ((0 : ℕ), min 30 (30 - 1) + 1) := by
  decide

/-- C2, amended: the valid-sample table has one row per radar line; every
line index in `[first_valid_line, last_valid_line)` gets the interval
`[first_valid_sample, min(last_valid_sample, width) + 1)` (the clamp is
against `width`, not `width - 1`), and every other line gets the empty
interval `[0, 0)`.  In particular, with `first_valid_line=2,
last_valid_line=5, first_valid_sample=10, last_valid_sample=19, width=30`
lines 0-1 get `[0,0)`, lines 2-4 get `[10,20)` and all remaining lines get
`[0,0)`, as the claim's concrete example states. -/
theorem validSampleTable_rows (len width fvl lvl fvs lvs i : ℕ) (hi : i < len) :
    (validSampleTable len width fvl lvl fvs lvs).length = len ∧
    (validSampleTable len width fvl lvl fvs lvs)[i]? =
      some (if fvl ≤ i ∧ i < lvl then (fvs, min lvs width + 1) else (0, 0)) := by
  constructor
  · simp [validSampleTable]
  · rw [validSampleTable, List.getElem?_map, List.getElem?_range hi]
    simp only [Option.map_some']
    rw [validSampleRow]
    split_ifs <;> first | rfl | omega

theorem validSampleTable_rows_witness :
    3 < 8 ∧
    ((validSampleTable 8 30 2 5 10 19).length = 8 ∧
     (validSampleTable 8 30 2 5 10 19)[3]? =
       some (if 2 ≤ 3 ∧ 3 < 5 then (10, min 19 30 + 1) else (0, 0))) :=
  ⟨by decide, validSampleTable_rows 8 30 2 5 10 19 3 (by decide)⟩

/-- Run configuration exhibiting the unrecorded raw-SLC-VRT path: plain
GTiff output, no mosaicking, one burst, thermal-noise correction enabled. -/
def thermalRunFlags : RunFlags :=
  { output_format := "GTiff", flag_mosaic := false, n_bursts := 1,
    apply_thermal_noise := true, apply_abs_rad := false,
    save_nlooks := true, save_rtc_anf := true }

/-- C3: with thermal-noise correction enabled the burst loop creates the
raw SLC VRT (`rslc_{pol}.vrt`, line 356) but records only the corrected
SLC path (line 372); the raw VRT ends up in neither `temp_files_list` nor
`output_file_list` nor `output_metadata_dict`, violating the claimed
record-every-created-path invariant. -/
theorem raw_slc_vrt_not_recorded :
    BurstFile.rawSlcVrt "VV" ∈ burstCreatedFiles thermalRunFlags ["VV"] ∧
    BurstFile.rawSlcVrt "VV" ∉ burstTempFiles thermalRunFlags ["VV"] ∧
    BurstFile.rawSlcVrt "VV" ∉ burstOutputFiles thermalRunFlags ∧
    BurstFile.rawSlcVrt "VV" ∉ burstMetadataFiles thermalRunFlags := by
  decide

/-- C4: inside the burst loop (where `n_bursts ≥ 1`, since the loop body
runs only when there is at least one burst), the per-burst artifacts are
classified temporary iff the output format is a composite container
(`HDF5` or `NETCDF`) or mosaicking is requested with more than one burst;
the flag is computed once at the top of the loop body (lines 315-316),
before any artifact of the burst is created, and never reassigned. -/
theorem flag_bursts_files_are_temporary_iff (c : RunFlags) (h : 1 ≤ c.n_bursts) :
    flagBurstsFilesAreTemporary c = true ↔
      ((c.output_format = "HDF5" ∨ c.output_format = "NETCDF") ∨
        (c.flag_mosaic = true ∧ 1 < c.n_bursts)) := by
  simp only [flagBurstsFilesAreTemporary, flagHdf5, Bool.or_eq_true, Bool.and_eq_true,
    Bool.not_eq_true', beq_eq_false_iff_ne, ne_eq, beq_iff_eq]
  constructor
  · rintro ((h1 | h1) | ⟨hm, hn⟩)
    · exact Or.inl (Or.inl h1)
    · exact Or.inl (Or.inr h1)
    · exact Or.inr ⟨hm, by omega⟩
  · rintro ((h1 | h1) | ⟨hm, hn⟩)
    · exact Or.inl (Or.inl h1)
    · exact Or.inl (Or.inr h1)
    · exact Or.inr ⟨hm, by omega⟩

/-- Run configuration with mosaicking over three bursts and plain GTiff
output. -/
def mosaicRunFlags : RunFlags :=
  { output_format := "GTiff", flag_mosaic := true, n_bursts := 3,
    apply_thermal_noise := false, apply_abs_rad := false,
    save_nlooks := true, save_rtc_anf := false }

theorem flag_bursts_files_are_temporary_iff_witness :
    1 ≤ mosaicRunFlags.n_bursts ∧ flagBurstsFilesAreTemporary mosaicRunFlags = true :=
  ⟨by decide,
    (flag_bursts_files_are_temporary_iff mosaicRunFlags (by decide)).mpr
      (Or.inr ⟨rfl, by decide⟩)⟩

/-- C5: the exponent passed to the geocoding engine equals 1 if
thermal-noise correction or absolute-radiometric correction is enabled,
and equals 2 otherwise (lines 268-269, passed at line 487). -/
theorem exponent_selection (t a : Bool) :
    ((t = true ∨ a = true) → runExponent t a = 1) ∧
    (t = false → a = false → runExponent t a = 2) := by
  cases t <;> cases a <;> simp [runExponent]

theorem exponent_selection_witness :
    runExponent true false = 1 ∧ runExponent false false = 2 :=
  ⟨(exponent_selection true false).1 (Or.inl rfl), (exponent_selection false false).2 rfl rfl⟩

/-- C8: for every complex input pixel with `|slc| = 0`, every non-negative
thermal-noise LUT value at that pixel and every nonzero calibration
constant, the correction with `flag_output_complex=True` produces exactly
`0 + 0i` at that pixel, for any combination of the thermal and
absolute-radiometric flags: the `0/0` magnitude ratio is NaN and line 128
maps it to `0`, so no NaN/Inf reaches the output. -/
theorem slc_zero_complex_correction_zero (slc : ℂ) (noise beta_naught : ℝ)
    (flag_thermal flag_abs : Bool)
    (hslc : Complex.abs slc = 0) (hnoise : 0 ≤ noise) (hbeta : beta_naught ≠ 0) :
    applySlcCorrectionsComplexPixel slc noise beta_naught flag_thermal flag_abs = some 0 := by
  have hz : slc = 0 := by simpa using hslc
  subst hz
  have habs : Complex.abs (0 : ℂ) = 0 := by simp
  have hp : thermalCorrectedPower 0 noise flag_thermal = 0 := by
    cases flag_thermal
    · rfl
    · simpa [thermalCorrectedPower] using max_eq_right (neg_nonpos.mpr hnoise)
  cases flag_abs <;>
    simp [applySlcCorrectionsComplexPixel, hp, habs, npDivNonneg, replaceNanWithZero,
      hbeta, Real.sqrt_zero]

theorem slc_zero_complex_correction_zero_witness :
    Complex.abs (0 : ℂ) = 0 ∧ (0 : ℝ) ≤ 1 ∧ (4 : ℝ) ≠ 0 ∧
    applySlcCorrectionsComplexPixel 0 1 4 true true = some 0 :=
  ⟨by simp, by norm_num, by norm_num,
    slc_zero_complex_correction_zero 0 1 4 true true (by simp) (by norm_num) (by norm_num)⟩

/-- With both save flags off, the burst loop leaves the metadata dict
untouched and never raises. -/
theorem burstLoop_no_flags (nl rt : String) (n : ℕ) (d : OutputMetadataDict) :
    burstLoopMetadata false false nl rt n d = Except.ok d := by
  induction n generalizing d with
  | zero => rfl
  | succ n ih => simpa [burstLoopMetadata, burstMetadataUpdate] using ih d

/-- With `flag_save_nlooks` off and `flag_save_rtc_anf` on, the burst loop
keeps the dict a single `rtc` entry (with a growing contribution list) and
never raises. -/
theorem burstLoop_rtc_only (nl rt p : String) (n : ℕ) (l : List String) :
    ∃ l2, burstLoopMetadata false true nl rt n [("rtc", p, l)] =
      Except.ok [("rtc", p, l2)] := by
  induction n generalizing l with
  | zero => exact ⟨l, rfl⟩
  | succ n ih =>
    have hstep : burstMetadataUpdate false true nl rt [("rtc", p, l)] =
        Except.ok [("rtc", p, l ++ [rt])] := rfl
    rcases ih (l ++ [rt]) with ⟨l2, h2⟩
    refine ⟨l2, ?_⟩
    rw [burstLoopMetadata, hstep]
    exact h2

/-- C9: for every run with mosaicking enabled and `save_nlooks` disabled,
the metadata-dict thread of `run` survives the whole burst loop (nothing
validates the combination before the loop) and then fails at line 587 of
the mosaic stage with a `KeyError`, because the `nlooks` key was never
added to `output_metadata_dict`. -/
theorem mosaic_without_nlooks_keyerror (save_rtc_anf : Bool) (n : ℕ)
    (output_dir product_id extension nlooks_file rtc_anf_file : String) :
    runMetadataPipeline true false save_rtc_anf n output_dir product_id extension
      nlooks_file rtc_anf_file = Except.error "KeyError: nlooks" := by
  cases save_rtc_anf
  · have hloop := burstLoop_no_flags nlooks_file rtc_anf_file n
      (initialOutputMetadataDict false false output_dir product_id extension)
    simp only [runMetadataPipeline, hloop]
    rfl
  · have h0 : initialOutputMetadataDict false true output_dir product_id extension =
        [("rtc", output_dir ++ "/" ++ product_id ++ "_" ++ "rtc" ++ "." ++ extension, [])] :=
      rfl
    rcases burstLoop_rtc_only nlooks_file rtc_anf_file
      (output_dir ++ "/" ++ product_id ++ "_" ++ "rtc" ++ "." ++ extension) n [] with ⟨l2, h2⟩
    simp only [runMetadataPipeline, h0, h2]
    rfl

/-- C10: whenever thermal-noise or absolute-radiometric correction is
enabled, the orchestrator calls `apply_slc_corrections` with
`flag_output_complex=False` and the hard-coded
`flag_apply_abs_rad_correction=True` (lines 360-367), so the stored pixel
is the corrected power divided by `beta_naught ** 2` — even when the
configuration disables absolute radiometric correction and only
thermal-noise correction was requested. -/
theorem slc_correction_forces_abs_rad (flag_thermal flag_abs : Bool) (slc : ℂ)
    (noise beta_naught : ℝ) (h : (flag_thermal || flag_abs) = true) :
    slcCorrectionCallArgs flag_thermal flag_abs = some (false, flag_thermal, true) ∧
    applySlcCorrectionsPowerPixel slc noise beta_naught flag_thermal true =
      thermalCorrectedPower (Complex.abs slc ^ 2) noise flag_thermal / beta_naught ^ 2 := by
  refine ⟨?_, rfl⟩
  simp [slcCorrectionCallArgs, h]

theorem slc_correction_forces_abs_rad_witness :
    ((true || false) = true) ∧
    (slcCorrectionCallArgs true false = some (false, true, true) ∧
     applySlcCorrectionsPowerPixel 0 1 4 true true =
       thermalCorrectedPower (Complex.abs (0 : ℂ) ^ 2) 1 true / 4 ^ 2) :=
  ⟨rfl, slc_correction_forces_abs_rad true false 0 1 4 rfl⟩
